import Mathlib

/-!
Verification of the VedeoAI backend (`backend/server.py`) against its
natural-language specification.

The file shallow-embeds the core pipeline of the source file:
the prompt generator (`generate_video_prompt`), the caption generator
(`generate_caption_and_hashtags`), the video renderer wrapper
(`generate_video_with_fal`), the Instagram publisher (`InstagramService`)
and the background orchestrator (`process_video_generation`).

External effects are made explicit:
  * LLM calls, HTTP calls and the FAL render API are oracles passed in as
    parameters (an `Except`/`Option` value describing the outcome the
    external world produced for that call);
  * Python exceptions are modelled with `Except`: a `.error` value means an
    exception escaped the corresponding region of code;
  * MongoDB writes are modelled as an append-only trace of `DbWrite`
    values; each write call has a Boolean oracle saying whether the write
    succeeded or raised;
  * `datetime.now(timezone.utc)` is modelled by a logical clock (a natural
    number incremented at each call), so "later call returns a later
    timestamp" holds by construction.

Record fields follow the JSON-document shapes of the source; prompt
documents are typed by the schema the source's own system prompt documents
(hook / scenes / visual_style with string-valued descriptions).
-/

/-- Minimal JSON value model for the payloads parsed from LLM responses. -/
inductive JsonVal where
  | null
  | bool (b : Bool)
  | num (n : Int)
  | str (s : String)
  | list (xs : List JsonVal)
  | obj (fields : List (String × JsonVal))

/-- Dictionary lookup `d[k]` / `k in d` on a JSON object; `none` for every
non-object (indexing a non-dict with a string key raises in Python, and in
`generate_caption_and_hashtags` every such raise funnels into the fallback
branch, so collapsing it to `none` is observationally exact there). -/
def JsonVal.getKey : JsonVal → String → Option JsonVal
  | .obj fields, k => fields.lookup k
  | _, _ => none

/-- Python `tag.startswith("#")`: the first character is `'#'`. -/
def startsWithHash (t : String) : Bool :=
  match t.data with
  | c :: _ => c == '#'
  | [] => false

/-- A string starts with `'#'` iff it is `"#"` followed by a remainder. -/
theorem startsWithHash_iff (t : String) :
    startsWithHash t = true ↔ ∃ r : String, t = "#" ++ r := by
  constructor
  · intro h
    match t, h with
    | ⟨c :: cs⟩, h =>
      simp [startsWithHash] at h
      subst h
      exact ⟨⟨cs⟩, rfl⟩
  · rintro ⟨r, rfl⟩
    cases r with
    | mk d => simp [startsWithHash, String.append]

/-- One hashtag normalization step, from the list comprehension
`tag if tag.startswith("#") else f"#{tag}"` (server.py lines 421-424,
and again inside `create_media_container`, lines 543-545). -/
def normalizeTag (tag : String) : String :=
  if startsWithHash tag then tag else "#" ++ tag

/-- Hashtag-list normalization (the comprehension applied to the list). -/
def normalize_hashtags (hashtags : List String) : List String :=
  hashtags.map normalizeTag

/-- Python `s.replace(' ', '')`: remove every space character. -/
def stripSpaces (s : String) : String :=
  ⟨s.data.filter (fun c => c != ' ')⟩

/-- Outcome of the LLM call + JSON-parse prelude in
`generate_caption_and_hashtags`: either some exception was raised before a
JSON value was obtained (network error, timeout, non-JSON response), or a
parsed JSON value. -/
inductive CaptionOutcome where
  | llmError (msg : String)
  | parsed (json : JsonVal)

/-- Result dictionary of `generate_caption_and_hashtags`. The keys
`caption` and `hashtags` are always present (they are structure fields);
`error` is populated only on the fallback path, as in the source. -/
structure CaptionResult where
  success : Bool
  error : Option String
  caption : JsonVal
  hashtags : List String

/-- Python slicing `x[:50]` is defined exactly for strings and lists; the
source slices the caption inside a logging f-string, so a non-sliceable
caption raises and lands in the fallback branch. -/
def capSliceable : JsonVal → Bool
  | .str _ => true
  | .list _ => true
  | _ => false

/-- Extracts the underlying strings of a JSON list if every element is a
string; `none` if some element is not a string (on which the source's
`tag.startswith("#")` raises `AttributeError`). -/
def allStrings : List JsonVal → Option (List String)
  | [] => some []
  | .str s :: rest => (allStrings rest).map (s :: ·)
  | _ :: _ => none

/-- The deterministic fallback result of `generate_caption_and_hashtags`
(server.py lines 437-448). -/
def captionFallback (niche : String) (msg : String) : CaptionResult :=
  { success := false
    error := some msg
    caption := .str ("Check out this amazing " ++ niche ++ " content! 🔥✨ Follow for more!")
    hashtags := ["#" ++ stripSpaces niche, "#Reels", "#Viral", "#Trending", "#ContentCreator"] }

/-- Embedding of `generate_caption_and_hashtags` (server.py lines 371-448).
The whole body after building the user prompt sits inside one
`try/except Exception`, so every exception path produces the fallback;
the model is therefore a total function. The `niche`, `tone`, `platform`,
`video_length`, `goal` and `video_topic` arguments feed the LLM prompt; of
these only `niche` influences the result (in the fallback texts). -/
def generate_caption_and_hashtags (niche : String) (_tone : String)
    (_platform : String) (_video_length : Int) (_goal : String)
    (_video_topic : String) (outcome : CaptionOutcome) : CaptionResult :=
  match outcome with
  | .llmError msg => captionFallback niche msg
  | .parsed json =>
    match json.getKey "caption", json.getKey "hashtags" with
    | some cap, some hts =>
      -- `if not isinstance(caption_data["hashtags"], list): ... = []`
      match allStrings (match hts with | .list xs => xs | _ => []) with
      | some tags =>
        if capSliceable cap then
          { success := true
            error := none
            caption := cap
            hashtags := normalize_hashtags tags }
        else
          -- the `caption_data['caption'][:50]` log raises `TypeError`
          captionFallback niche "type error"
      | none =>
        -- `tag.startswith` raises `AttributeError` on a non-string tag
        captionFallback niche "attribute error"
    | _, _ =>
      -- `raise ValueError("Invalid response structure")`
      captionFallback niche "Invalid response structure"

/-- Helper: both branches of `normalizeTag` yield a `'#'`-prefixed tag. -/
theorem normalizeTag_hash (tag : String) :
    ∃ r : String, normalizeTag tag = "#" ++ r := by
  unfold normalizeTag
  split
  · next h => exact (startsWithHash_iff tag).1 h
  · exact ⟨tag, rfl⟩

/-- Every result of `generate_caption_and_hashtags` is either the
deterministic fallback or a success record with normalized hashtags. -/
theorem caption_shape (niche tone platform : String) (video_length : Int)
    (goal video_topic : String) (outcome : CaptionOutcome) :
    (∃ msg, generate_caption_and_hashtags niche tone platform video_length
        goal video_topic outcome = captionFallback niche msg) ∨
    (∃ cap tags, generate_caption_and_hashtags niche tone platform
        video_length goal video_topic outcome =
      { success := true, error := none, caption := cap,
        hashtags := normalize_hashtags tags }) := by
  cases outcome with
  | llmError msg => exact .inl ⟨msg, rfl⟩
  | parsed json =>
    simp only [generate_caption_and_hashtags]
    split
    · split
      · split
        · exact .inr ⟨_, _, rfl⟩
        · exact .inl ⟨_, rfl⟩
      · exact .inl ⟨_, rfl⟩
    · exact .inl ⟨_, rfl⟩

/-- C5: every result of `generate_caption_and_hashtags` — LLM success or
fallback — carries the `caption` and `hashtags` keys (structure fields of
`CaptionResult`), every hashtag starts with `'#'`, and the fallback result
has exactly five hashtags. The function is total (never raises): the
source wraps its whole body in `try/except Exception` and the fallback
branch itself cannot raise. -/
theorem caption_result_wellformed (niche tone platform : String)
    (video_length : Int) (goal video_topic : String)
    (outcome : CaptionOutcome) :
    (∀ tag ∈ (generate_caption_and_hashtags niche tone platform video_length
        goal video_topic outcome).hashtags, ∃ r : String, tag = "#" ++ r) ∧
    ((generate_caption_and_hashtags niche tone platform video_length
        goal video_topic outcome).success = false →
      (generate_caption_and_hashtags niche tone platform video_length
        goal video_topic outcome).hashtags.length = 5) := by
  have fallback_ok : ∀ msg,
      (∀ tag ∈ (captionFallback niche msg).hashtags, ∃ r : String, tag = "#" ++ r) ∧
      (captionFallback niche msg).hashtags.length = 5 := by
    intro msg
    refine ⟨?_, rfl⟩
    intro tag htag
    simp [captionFallback] at htag
    rcases htag with h | h | h | h | h <;> subst h
    · exact ⟨stripSpaces niche, rfl⟩
    · exact ⟨"Reels", rfl⟩
    · exact ⟨"Viral", rfl⟩
    · exact ⟨"Trending", rfl⟩
    · exact ⟨"ContentCreator", rfl⟩
  rcases caption_shape niche tone platform video_length goal video_topic
      outcome with ⟨msg, heq⟩ | ⟨cap, tags, heq⟩ <;> rw [heq]
  · exact ⟨(fallback_ok msg).1, fun _ => (fallback_ok msg).2⟩
  · refine ⟨?_, by intro h; simp at h⟩
    intro tag htag
    simp [normalize_hashtags] at htag
    rcases htag with ⟨t, _, ht⟩
    exact ht ▸ normalizeTag_hash t

/-- Witness for C5 at a concrete failing LLM call and a concrete success. -/
theorem caption_result_wellformed_witness :
    (∀ tag ∈ (generate_caption_and_hashtags "a b" "cinematic" "instagram" 30
        "engagement" "" (.llmError "timeout")).hashtags,
        ∃ r : String, tag = "#" ++ r) ∧
    ((generate_caption_and_hashtags "a b" "cinematic" "instagram" 30
        "engagement" "" (.llmError "timeout")).success = false →
      (generate_caption_and_hashtags "a b" "cinematic" "instagram" 30
        "engagement" "" (.llmError "timeout")).hashtags.length = 5) :=
  caption_result_wellformed "a b" "cinematic" "instagram" 30 "engagement" ""
    (.llmError "timeout")

/-- C6: the hashtag normalization comprehension is idempotent — on a list
whose every element already starts with `'#'` it is the identity. -/
theorem normalize_hashtags_idempotent (l : List String)
    (h : ∀ t ∈ l, startsWithHash t = true) :
    normalize_hashtags l = l := by
  induction l with
  | nil => rfl
  | cons t rest ih =>
    have ht : startsWithHash t = true := h t (by simp)
    have hrest : ∀ t ∈ rest, startsWithHash t = true :=
      fun x hx => h x (by simp [hx])
    simp [normalize_hashtags, normalizeTag, ht] at ih ⊢
    exact ih hrest

/-- Witness for C6 on a concrete already-normalized list. -/
theorem normalize_hashtags_idempotent_witness :
    normalize_hashtags ["#Reels", "#Viral"] = ["#Reels", "#Viral"] :=
  normalize_hashtags_idempotent ["#Reels", "#Viral"] (by decide)

/-- Request model for prompt generation (`PromptGenerateRequest`,
server.py lines 93-99). -/
structure PromptGenRequest where
  niche : String
  platform : String
  video_length : Int
  tone : String
  goal : String
  custom_idea : String

/-- Result dictionary of `generate_video_prompt`. -/
structure PromptGenResult where
  success : Bool
  error : Option String
  prompt : JsonVal
  raw_text : String

/-- The synthesized default prompt template returned by
`generate_video_prompt` when the LLM call fails (server.py lines 294-332).
Python `//` is floor division, hence `Int.fdiv`. -/
def default_prompt_template (req : PromptGenRequest) : JsonVal :=
  .obj [
    ("hook", .obj [
      ("description", .str ("Captivating " ++ req.niche ++ " opening shot")),
      ("text_overlay", .str ("You won't believe this " ++ req.niche ++ " secret...")),
      ("emotion", .str "curiosity")]),
    ("scenes", .list [.obj [
      ("scene_number", .num 1),
      ("duration_seconds", .num (Int.fdiv req.video_length 3)),
      ("visual_description", .str ("Dynamic " ++ req.niche ++ " content establishing shot")),
      ("camera_movement", .str "slow zoom"),
      ("text_overlay", .str ""),
      ("transition_to_next", .str "smooth fade")]]),
    ("visual_style", .obj [
      ("cinematography", .str req.tone),
      ("lighting", .str "professional studio"),
      ("color_grade", .str "modern cinematic"),
      ("mood", .str req.tone)]),
    ("audio", .obj [
      ("music_style", .str (req.tone ++ " background track")),
      ("sound_effects", .list []),
      ("voiceover", .str "optional narration")]),
    ("metadata", .obj [
      ("aspect_ratio", .str "9:16"),
      ("total_duration", .num req.video_length),
      ("platform_optimization", .str req.platform),
      ("retention_hooks", .list [.str "opening hook", .str "mid-video reveal"])])]

/-- Embedding of `generate_video_prompt` (server.py lines 250-332). The
oracle is the outcome of the LLM-call-plus-JSON-parse prelude: `.ok` pairs
the raw response text with its parsed JSON; `.error` is any exception
(network, timeout, non-JSON response), all of which the source catches in
one `except Exception` that returns the default template. The user-prompt
f-string built before the `try` block cannot raise on the request's
string/int fields, so the model is a total function. -/
def generate_video_prompt (req : PromptGenRequest)
    (llm : Except String (String × JsonVal)) : PromptGenResult :=
  match llm with
  | .ok (raw, parsed) =>
    { success := true, error := none, prompt := parsed, raw_text := raw }
  | .error msg =>
    { success := false, error := some msg
      prompt := default_prompt_template req
      raw_text := "Generated default template for " ++ req.niche }

/-- C7: `generate_video_prompt` never propagates an exception (the model is
total, mirroring the source's single catch-all handler), and on any failed
LLM call it returns `success = false` together with the structurally valid
default prompt: all five schema keys are present, the single scene's
`duration_seconds` is `video_length // 3`, `visual_style.cinematography`
is the request's tone, and `metadata.total_duration` is the request's
`video_length`. -/
theorem prompt_default_wellformed (req : PromptGenRequest) (msg : String) :
    (generate_video_prompt req (.error msg)).success = false ∧
    ((generate_video_prompt req (.error msg)).prompt.getKey "hook").isSome ∧
    ((generate_video_prompt req (.error msg)).prompt.getKey "audio").isSome ∧
    (generate_video_prompt req (.error msg)).prompt.getKey "scenes" =
      some (.list [.obj [
        ("scene_number", .num 1),
        ("duration_seconds", .num (Int.fdiv req.video_length 3)),
        ("visual_description", .str ("Dynamic " ++ req.niche ++ " content establishing shot")),
        ("camera_movement", .str "slow zoom"),
        ("text_overlay", .str ""),
        ("transition_to_next", .str "smooth fade")]]) ∧
    (((generate_video_prompt req (.error msg)).prompt.getKey
        "visual_style").bind (fun v => v.getKey "cinematography")) =
      some (.str req.tone) ∧
    (((generate_video_prompt req (.error msg)).prompt.getKey
        "metadata").bind (fun v => v.getKey "total_duration")) =
      some (.num req.video_length) := by
  refine ⟨rfl, ?_, ?_, ?_, ?_, ?_⟩ <;>
    simp [generate_video_prompt, default_prompt_template, JsonVal.getKey,
      List.lookup]

/-- C8: the video length quantization of `generate_video_with_fal`
(server.py line 895): `duration = 5 if video_length <= 30 else 10`. -/
def fal_clip_duration (video_length : Int) : Int :=
  if video_length ≤ 30 then 5 else 10

/-- Render API result shape: `result.get("video", {}).get("url")` and
`result.get("duration", duration)`. Any shape error while reading them is
covered by the submit oracle's `.error` case (same `except` block). -/
structure FalApiResult where
  video_url : Option String
  duration : Option Int

/-- The dict returned by `generate_video_with_fal`: on success `video_url`
is the (possibly absent) url of the rendered clip and `duration` is
`result.get("duration", duration)`; on failure only `error` is set. -/
structure FalVideoResult where
  success : Bool
  video_url : Option String
  duration : Option Int
  error : Option String

/-- Return behavior of `generate_video_with_fal`: the function either
raises (the `FAL_KEY` guard sits before the `try` block, so that
`ValueError` propagates to the caller) or returns a tagged result dict. -/
inductive FalReturn where
  | raised (msg : String)
  | ok (r : FalVideoResult)

/-- Render-call environment: the configured `FAL_KEY` (empty string means
unconfigured) and the outcome of the submit/await pair inside the `try`
block (`.error` for any exception raised there). -/
structure FalEnv where
  falKey : String
  submitResult : Except String FalApiResult

/-- Embedding of `generate_video_with_fal` (server.py lines 881-927). -/
def generate_video_with_fal (_prompt_text : String) (video_length : Int)
    (env : FalEnv) : FalReturn :=
  if env.falKey = "" then
    .raised "FAL_KEY not configured"
  else
    let duration := fal_clip_duration video_length
    match env.submitResult with
    | .error e =>
      .ok { success := false, video_url := none, duration := none,
            error := some e }
    | .ok r =>
      .ok { success := true, video_url := r.video_url,
            duration := some (r.duration.getD duration), error := none }

/-- C8: video length quantization is a pure total function on integers:
lengths up to 30 map to a 5-second clip and anything longer to a
10-second clip; and that is exactly the duration `generate_video_with_fal`
reports when the render API result carries no duration field. -/
theorem fal_clip_duration_spec (n : Int) :
    (n ≤ 30 → fal_clip_duration n = 5) ∧
    (30 < n → fal_clip_duration n = 10) ∧
    (∀ pt env r, env.falKey ≠ "" → env.submitResult = .ok r →
      r.duration = none →
      generate_video_with_fal pt n env =
        .ok { success := true, video_url := r.video_url,
              duration := some (fal_clip_duration n), error := none }) := by
  refine ⟨fun h => by simp [fal_clip_duration, h],
          fun h => by simp [fal_clip_duration, not_le.mpr h], ?_⟩
  intro pt env r hkey hsub hdur
  simp [generate_video_with_fal, hkey, hsub, hdur, Option.getD]

/-- Witness for C8 at lengths 20 and 40 and a concrete render outcome. -/
theorem fal_clip_duration_spec_witness :
    fal_clip_duration 20 = 5 ∧ fal_clip_duration 40 = 10 ∧
    generate_video_with_fal "p" 20
        { falKey := "k", submitResult := .ok ⟨some "u", none⟩ } =
      .ok { success := true, video_url := some "u",
            duration := some (fal_clip_duration 20), error := none } :=
  ⟨(fal_clip_duration_spec 20).1 (by decide),
   (fal_clip_duration_spec 40).2.1 (by decide),
   (fal_clip_duration_spec 20).2.2 "p"
     { falKey := "k", submitResult := .ok ⟨some "u", none⟩ }
     ⟨some "u", none⟩ (by decide) rfl rfl⟩

/-- State of the `InstagramService` singleton (server.py lines 456-466).
Python's `business_account_id` starts as the environment string and is
overwritten with the result of `_fetch_business_account_id` (possibly
`None`), hence `Option String`; truthiness treats `none` and `""` alike. -/
structure InstagramService where
  access_token : String
  business_account_id : Option String
  mock_mode : Bool

/-- Python truthiness of the stored business account id. -/
def bizSet : Option String → Bool
  | none => false
  | some s => !(s == "")

/-- `InstagramService.__init__`: read both credentials from the
environment; mock mode iff either is empty. -/
def InstagramService.init (access_token business_account_id : String) :
    InstagramService :=
  { access_token := access_token
    business_account_id := some business_account_id
    mock_mode := access_token == "" || business_account_id == "" }

/-- Oracles consumed by one `create_media_container` call: the uuid suffix
of a mock id, the result of `_fetch_business_account_id` (`none` for every
failure path — that helper catches all of its exceptions), and the result
of the live container-creation POST (`none` for a non-2xx response, an
exception, or a 200 body without an `id`). -/
structure IgCreateEnv where
  mockSuffix : String
  fetchResult : Option String
  postResult : Option String

/-- Caption text used when formatting the live-mode caption. The caption
reaching this call is a string in every execution the orchestrator can
produce (`generate_caption_and_hashtags` only returns sliceable captions,
and the live f-string concatenation requires a string). -/
def captionText : JsonVal → String
  | .str s => s
  | _ => ""

/-- Live branch of `create_media_container` (server.py lines 540-575):
format the caption with space-joined normalized hashtags and POST the
container; returns the response id or `None`. Performs network I/O. -/
def createLive (s : InstagramService) (_video_url : Option String)
    (caption : JsonVal) (hashtags : List String) (env : IgCreateEnv) :
    Option String × InstagramService × Bool :=
  let _formatted_caption :=
    captionText caption ++
      (if hashtags.isEmpty then ""
       else "\n\n" ++ String.intercalate " " (hashtags.map normalizeTag))
  (env.postResult, s, true)

/-- Embedding of `InstagramService.create_media_container` (server.py
lines 518-575). Returns the container id, the updated service state and
whether network I/O was performed. The recursive retry after the
mock-mode fallback necessarily takes the mock branch, so it is inlined. -/
def InstagramService.create_media_container (s : InstagramService)
    (video_url : Option String) (caption : JsonVal)
    (hashtags : List String) (env : IgCreateEnv) :
    Option String × InstagramService × Bool :=
  if s.mock_mode then
    (some ("mock_ig_" ++ env.mockSuffix), s, false)
  else if bizSet s.business_account_id = false then
    match env.fetchResult with
    | none =>
      -- `self.business_account_id = None; self.mock_mode = True;`
      -- `return await self.create_media_container(...)`
      let s' : InstagramService :=
        { s with business_account_id := none, mock_mode := true }
      (some ("mock_ig_" ++ env.mockSuffix), s', true)
    | some acct =>
      createLive { s with business_account_id := some acct }
        video_url caption hashtags env
  else
    createLive s video_url caption hashtags env

/-- Embedding of `InstagramService.get_container_status` (server.py lines
577-602): the value of the returned dict's `status_code` key, doubly
optional (`none` = the call returned `None`). -/
def InstagramService.get_container_status (s : InstagramService)
    (liveResult : Option (Option String)) : Option (Option String) × Bool :=
  if s.mock_mode then (some (some "FINISHED"), false)
  else (liveResult, true)

/-- Result dict of `publish_reel`. Timestamps are logical-clock values. -/
structure PublishResult where
  success : Bool
  instagram_post_id : Option String
  instagram_url : Option String
  posted_at : Option Nat
  error : Option String

/-- Embedding of `InstagramService.publish_reel` (server.py lines
604-662). `liveOutcome` is the oracle for the live POST: `.error body`
for a non-2xx response or exception, `.ok id?` for a 200 response whose
body may or may not carry an `id`. `clock` models `datetime.now`;
the triple returned is (result, network I/O performed, new clock). -/
def InstagramService.publish_reel (s : InstagramService)
    (_container_id : String) (_caption : JsonVal) (_hashtags : List String)
    (mockSuffix : String) (liveOutcome : Except String (Option String))
    (clock : Nat) : PublishResult × Bool × Nat :=
  if s.mock_mode then
    ({ success := true
       instagram_post_id := some ("mock_post_" ++ mockSuffix)
       instagram_url := some ("https://instagram.com/p/mock_post_" ++ mockSuffix)
       posted_at := some clock
       error := none }, false, clock + 1)
  else
    match liveOutcome with
    | .error body =>
      ({ success := false, instagram_post_id := none,
         instagram_url := none, posted_at := none,
         error := some body }, true, clock)
    | .ok mediaId =>
      ({ success := true
         instagram_post_id := mediaId
         instagram_url := some ("https://www.instagram.com/reel/" ++ mediaId.getD "None")
         posted_at := some clock
         error := none }, true, clock + 1)

/-- C9: in mock mode, `create_media_container` returns a non-null id of
the form `mock_ig_\x2a` and `publish_reel` returns `success = true` with a
post id of the form `mock_post_\x2a`, both without network I/O; the random
uuid suffixes and the clock are universally quantified, so randomness
never influences the success outcome or the result shape. -/
theorem mock_mode_publisher_spec (s : InstagramService)
    (hmock : s.mock_mode = true) (video_url : Option String)
    (caption : JsonVal) (hashtags : List String) (env : IgCreateEnv)
    (container_id : String) (pubSuffix : String)
    (liveOutcome : Except String (Option String)) (clock : Nat) :
    s.create_media_container video_url caption hashtags env =
      (some ("mock_ig_" ++ env.mockSuffix), s, false) ∧
    s.publish_reel container_id caption hashtags pubSuffix liveOutcome
        clock =
      ({ success := true
         instagram_post_id := some ("mock_post_" ++ pubSuffix)
         instagram_url := some ("https://instagram.com/p/mock_post_" ++ pubSuffix)
         posted_at := some clock
         error := none }, false, clock + 1) := by
  constructor
  · simp [InstagramService.create_media_container, hmock]
  · simp [InstagramService.publish_reel, hmock]

/-- Witness for C9 at a concrete mock-mode service state. -/
theorem mock_mode_publisher_spec_witness :
    (InstagramService.init "" "").create_media_container
        (some "http://v") (.str "cap") ["#a"] ⟨"abc", none, none⟩ =
      (some ("mock_ig_" ++ "abc"), InstagramService.init "" "", false) ∧
    (InstagramService.init "" "").publish_reel "c1" (.str "cap") ["#a"]
        "def" (.error "x") 7 =
      ({ success := true
         instagram_post_id := some ("mock_post_" ++ "def")
         instagram_url := some ("https://instagram.com/p/mock_post_" ++ "def")
         posted_at := some 7
         error := none }, false, 8) :=
  mock_mode_publisher_spec (InstagramService.init "" "") rfl
    (some "http://v") (.str "cap") ["#a"] ⟨"abc", none, none⟩ "c1" "def"
    (.error "x") 7

/-- Counterexample for C4 as stated: in live mode with the business
account id set, a failed container-creation POST returns `None` without
flipping `mock_mode` — so "whenever container creation returns null in
live mode the instance permanently sets mock_mode to true" is false. -/
theorem live_null_does_not_flip_mock :
    ({ access_token := "tok", business_account_id := some "123",
       mock_mode := false : InstagramService }.create_media_container
      (some "http://v") (.str "cap") ["#a"] ⟨"abc", none, none⟩).1 = none ∧
    ({ access_token := "tok", business_account_id := some "123",
       mock_mode := false : InstagramService }.create_media_container
      (some "http://v") (.str "cap") ["#a"] ⟨"abc", none, none⟩).2.1.mock_mode
      = false := ⟨rfl, rfl⟩

/-- C4 (amended): the permanent mock fallback happens exactly on the
unset-business-id-and-failed-resolution path. When `create_media_container`
runs in live mode with the business account id unset and resolution fails,
the instance flips `mock_mode` to `true` and the retried call under mock
semantics returns a non-null `mock_ig_`-prefixed id; every subsequent call
on the updated instance takes the mock branch (no live resolution, no
network I/O). A null result in live mode with the business account id set
does not flip `mock_mode`. -/
theorem mock_fallback_is_permanent (s : InstagramService)
    (hmock : s.mock_mode = false) (hbiz : bizSet s.business_account_id = false)
    (video_url : Option String) (caption : JsonVal)
    (hashtags : List String) (env : IgCreateEnv)
    (hfetch : env.fetchResult = none) :
    (s.create_media_container video_url caption hashtags env).1 =
      some ("mock_ig_" ++ env.mockSuffix) ∧
    (s.create_media_container video_url caption hashtags env).2.1.mock_mode
      = true ∧
    (∀ vu2 cap2 hts2 env2,
      (s.create_media_container video_url caption hashtags
          env).2.1.create_media_container vu2 cap2 hts2 env2 =
        (some ("mock_ig_" ++ env2.mockSuffix),
         (s.create_media_container video_url caption hashtags env).2.1,
         false)) ∧
    (∀ s2 : InstagramService, s2.mock_mode = false →
      bizSet s2.business_account_id = true →
      ∀ vu2 cap2 hts2 (env2 : IgCreateEnv), env2.postResult = none →
        (s2.create_media_container vu2 cap2 hts2 env2).1 = none ∧
        (s2.create_media_container vu2 cap2 hts2 env2).2.1.mock_mode
          = false) := by
  have hc : s.create_media_container video_url caption hashtags env =
      (some ("mock_ig_" ++ env.mockSuffix),
       { s with business_account_id := none, mock_mode := true }, true) := by
    simp [InstagramService.create_media_container, hmock, hbiz, hfetch]
  refine ⟨by rw [hc], by rw [hc], ?_, ?_⟩
  · intro vu2 cap2 hts2 env2
    rw [hc]
    simp [InstagramService.create_media_container]
  · intro s2 hm2 hb2 vu2 cap2 hts2 env2 hpost
    constructor <;>
      simp [InstagramService.create_media_container, hm2, hb2, createLive,
        hpost]

/-- Witness for the amended C4 at a concrete live-mode state with unset
business account id and failed resolution. -/
theorem mock_fallback_is_permanent_witness :
    (({ access_token := "tok", business_account_id := some "",
        mock_mode := false : InstagramService }).create_media_container
      (some "http://v") (.str "cap") ["#a"] ⟨"abc", none, none⟩).1 =
      some ("mock_ig_" ++ "abc") ∧
    (({ access_token := "tok", business_account_id := some "",
        mock_mode := false : InstagramService }).create_media_container
      (some "http://v") (.str "cap") ["#a"] ⟨"abc", none, none⟩).2.1.mock_mode
      = true :=
  let base := mock_fallback_is_permanent
    { access_token := "tok", business_account_id := some "",
      mock_mode := false } rfl rfl (some "http://v") (.str "cap") ["#a"]
    ⟨"abc", none, none⟩ rfl
  ⟨base.1, base.2.1⟩

/-- Status values of a VideoJob document. -/
inductive Status where
  | queued
  | processing
  | completed
  | failed
deriving DecidableEq

/-- Field set of the three identical `"status": "completed"` `$set`
payloads of `process_video_generation` (server.py lines 1058-1073,
1077-1092, 1096-1111, 1115-1130). -/
structure CompletedFields where
  video_url : Option String
  duration : Int
  completed_at : Nat
  caption_text : JsonVal
  hashtags_used : List String
  instagram_post_id : Option String
  posted_at : Option Nat
  platform : String

/-- One record-store write performed by the orchestrator, in order: the
`processing` status update, a full `completed` update, the bare `failed`
update, the prompt-status update, and the PerformanceMetrics insert
(whose `updated_at` is the orchestrator's `completed_at` value). -/
inductive DbWrite where
  | setProcessing
  | setCompleted (fields : CompletedFields)
  | setFailed
  | promptCompleted (prompt_id : String)
  | perfInsert (video_id : String) (updated_at : Nat)

/-- Success oracles for each record-store write call of one orchestrator
run; `false` means that call raises. -/
structure DbEnv where
  videoProcessingOk : Bool
  videoCompletedOk : Bool
  videoCompletedExceptOk : Bool
  promptCompletedOk : Bool
  perfInsertOk : Bool
  videoFailedOk : Bool

/-- All record-store writes succeed. -/
def DbEnv.allOk : DbEnv := ⟨true, true, true, true, true, true⟩

/-- The prompt document handed to the background task, typed by the schema
of `generate_video_prompt`'s output; fields read via `.get` with a default
are optional. -/
structure PromptDoc where
  id : String
  niche : Option String
  platform : Option String
  video_length : Option Int
  tone : Option String
  goal : Option String
  hook_description : Option String
  scene_visuals : List (Option String)
  cinematography : Option String
  mood : Option String

/-- The documented placeholder URL substituted when rendering fails
(server.py line 988). -/
def placeholder_video_url : String :=
  "https://storage.googleapis.com/gtv-videos-bucket/sample/ForBiggerBlazes.mp4"

/-- Render-prompt construction (server.py lines 949-967): hook description,
up to the first three scene visual descriptions, cinematography and mood,
joined with ". "; empty strings are falsy and skipped. -/
def build_prompt_text (p : PromptDoc) : String :=
  let hookPart : List String :=
    match p.hook_description with
    | some d => if d = "" then [] else ["Opening: " ++ d]
    | none => []
  let sceneParts : List String :=
    (p.scene_visuals.take 3).filterMap fun v =>
      match v with
      | some s => if s = "" then none else some s
      | none => none
  let stylePart : List String :=
    match p.cinematography with
    | some c => if c = "" then [] else ["Style: " ++ c]
    | none => []
  let moodPart : List String :=
    match p.mood with
    | some m => if m = "" then [] else ["Mood: " ++ m]
    | none => []
  String.intercalate ". " (hookPart ++ sceneParts ++ stylePart ++ moodPart)

/-- Bounded container-readiness poll (server.py lines 1029-1042): up to 30
status checks, stopping at the first `FINISHED`; returns the final retry
count. `results k` is the (doubly optional) `status_code` of check `k`. -/
def pollContainer (results : Nat → Option (Option String)) :
    Nat → Nat → Nat
  | 0, acc => acc
  | fuel + 1, acc =>
    if results acc = some (some "FINISHED") then acc
    else pollContainer results fuel (acc + 1)

/-- Environment of one `process_video_generation` run: the render, caption
and Instagram oracles, the Instagram singleton's state at entry and the
record-store write oracles. `igRaises` covers an unexpected exception at
the start of the Instagram block (the inner `try` exists for exactly
that). -/
structure OrchEnv where
  fal : FalEnv
  caption : CaptionOutcome
  ig : InstagramService
  igCreate : IgCreateEnv
  igStatuses : Nat → Option (Option String)
  igPublishLive : Except String (Option String)
  igPubSuffix : String
  igRaises : Bool
  db : DbEnv

/-- Mutable run state: the ordered record-store write trace and the
logical clock. -/
structure RunState where
  trace : List DbWrite
  clock : Nat

/-- One record-store write call: appends on success, raises (carrying the
state unchanged) on failure. -/
def emitWrite (w : DbWrite) (ok : Bool) (st : RunState) :
    Except RunState RunState :=
  if ok then .ok { st with trace := st.trace ++ [w] } else .error st

/-- The common `$set` payload of the four `completed` writes (server.py
lines 1058-1073 etc.): they differ only in the Instagram post fields. -/
def mkCompleted (video_result : FalVideoResult) (p : PromptDoc)
    (video_url : Option String) (completed_at : Nat) (caption : JsonVal)
    (hashtags : List String) (post_id : Option String)
    (posted_at : Option Nat) : CompletedFields :=
  { video_url := video_url
    duration :=
      if video_result.success then
        video_result.duration.getD (p.video_length.getD 30)
      else p.video_length.getD 30
    completed_at := completed_at
    caption_text := caption
    hashtags_used := hashtags
    instagram_post_id := post_id
    posted_at := posted_at
    platform := "instagram" }

/-- Body of the inner Instagram `try` (server.py lines 1017-1111):
container creation, readiness poll, publish, and the branch-specific
`completed` write. `.error` means an exception escaped to the inner
`except` handler (either the modelled unexpected exception or a raising
record-store write). -/
def igInner (env : OrchEnv) (p : PromptDoc) (video_result : FalVideoResult)
    (video_url : Option String) (completed_at : Nat) (caption : JsonVal)
    (hashtags : List String) (st : RunState) : Except RunState RunState :=
  if env.igRaises then .error st
  else
    match env.ig.create_media_container video_url caption hashtags
        env.igCreate with
    | (cid, ig', _net) =>
      match cid with
      | some container_id =>
        let _retries :=
          if ig'.mock_mode then 0
          else
            pollContainer
              (fun k => (ig'.get_container_status (env.igStatuses k)).1)
              30 0
        match ig'.publish_reel container_id caption hashtags
            env.igPubSuffix env.igPublishLive st.clock with
        | (pub, _net2, clock') =>
          let st := { st with clock := clock' }
          if pub.success then
            emitWrite
              (.setCompleted (mkCompleted video_result p video_url
                completed_at caption hashtags pub.instagram_post_id
                pub.posted_at))
              env.db.videoCompletedOk st
          else
            emitWrite
              (.setCompleted (mkCompleted video_result p video_url
                completed_at caption hashtags none none))
              env.db.videoCompletedOk st
      | none =>
        emitWrite
          (.setCompleted (mkCompleted video_result p video_url
            completed_at caption hashtags none none))
          env.db.videoCompletedOk st

/-- The inner Instagram `try/except` (server.py lines 1017-1130): the
handler still marks the video `completed`, with null Instagram fields. -/
def igStep (env : OrchEnv) (p : PromptDoc) (video_result : FalVideoResult)
    (video_url : Option String) (completed_at : Nat) (caption : JsonVal)
    (hashtags : List String) (st : RunState) : Except RunState RunState :=
  match igInner env p video_result video_url completed_at caption hashtags
      st with
  | .ok st => .ok st
  | .error st =>
    emitWrite
      (.setCompleted (mkCompleted video_result p video_url completed_at
        caption hashtags none none))
      env.db.videoCompletedExceptOk st

/-- Exception-propagating sequencing of the straight-line statements of
the orchestrator body (each statement either raises or yields the next
run state). -/
def andThen (x : Except RunState RunState)
    (f : RunState → Except RunState RunState) : Except RunState RunState :=
  match x with
  | .error st => .error st
  | .ok st => f st

theorem andThen_ok (st : RunState) (f : RunState → Except RunState RunState) :
    andThen (.ok st) f = f st := rfl

theorem andThen_error (st : RunState)
    (f : RunState → Except RunState RunState) :
    andThen (.error st) f = .error st := rfl

/-- The caption topic (server.py lines 993-996): the hook description
truncated to 100 characters when present and non-empty, else the niche. -/
def videoTopic (p : PromptDoc) : String :=
  match p.hook_description with
  | some d => if d = "" then p.niche.getD "" else d.take 100
  | none => p.niche.getD ""

/-- The orchestrator's caption call (server.py lines 998-1005). -/
def orchCaption (p : PromptDoc) (env : OrchEnv) : CaptionResult :=
  generate_caption_and_hashtags (p.niche.getD "") (p.tone.getD "cinematic")
    (p.platform.getD "instagram") (p.video_length.getD 30)
    (p.goal.getD "engagement") (videoTopic p) env.caption

/-- The video url folded into the VideoJob (server.py lines 979-988):
the render result's url on success, the placeholder on failure. -/
def orchVideoUrl (video_result : FalVideoResult) : Option String :=
  if video_result.success then video_result.video_url
  else some placeholder_video_url

/-- The orchestrator body after the render call returned a result dict
(server.py lines 978-1148): capture `completed_at`, build the caption,
run the Instagram step, update the prompt status, insert the
PerformanceMetrics record. -/
def orchRest (video_id : String) (p : PromptDoc) (env : OrchEnv)
    (video_result : FalVideoResult) (st : RunState) :
    Except RunState RunState :=
  let completed_at := st.clock
  let st : RunState := { st with clock := st.clock + 1 }
  let caption := (orchCaption p env).caption
  let hashtags := (orchCaption p env).hashtags
  andThen (igStep env p video_result (orchVideoUrl video_result)
      completed_at caption hashtags st) fun st =>
  andThen (emitWrite (.promptCompleted p.id) env.db.promptCompletedOk
      st) fun st =>
  andThen (emitWrite (.perfInsert video_id completed_at)
      env.db.perfInsertOk st) fun st =>
  .ok st

/-- The outer `try` body of `process_video_generation` (server.py lines
933-1150): status to `processing`, render (whose `FAL_KEY` `ValueError`
escapes), then the rest of the pipeline. -/
def orchTryBody (video_id : String) (p : PromptDoc) (env : OrchEnv)
    (st : RunState) : Except RunState RunState :=
  andThen (emitWrite .setProcessing env.db.videoProcessingOk st) fun st =>
    match generate_video_with_fal (build_prompt_text p)
        (p.video_length.getD 30) env.fal with
    | .raised _ => .error st
    | .ok video_result => orchRest video_id p env video_result st

/-- Embedding of `process_video_generation` (server.py lines 929-1157):
run the `try` body; on an escaping exception the outer handler writes
status `failed` (and if that write itself raises, the task ends with the
trace as is). -/
def process_video_generation (video_id : String) (p : PromptDoc)
    (env : OrchEnv) : RunState :=
  match orchTryBody video_id p env { trace := [], clock := 0 } with
  | .ok st => st
  | .error st =>
    match emitWrite .setFailed env.db.videoFailedOk st with
    | .ok st => st
    | .error st => st

/-- The status carried by a write, if it is a video-status write. -/
def statusOfWrite : DbWrite → Option Status
  | .setProcessing => some .processing
  | .setCompleted _ => some .completed
  | .setFailed => some .failed
  | .promptCompleted _ => none
  | .perfInsert _ _ => none

/-- The ordered video-status writes of a trace. -/
def statusWrites (tr : List DbWrite) : List Status :=
  tr.filterMap statusOfWrite

/-- A status-write sequence is monotone when everything written after a
terminal status (`completed` or `failed`) equals that terminal status. -/
def statusMonotone : List Status → Bool
  | [] => true
  | s :: rest =>
    (if s = .completed ∨ s = .failed then rest.all (· = s) else true) &&
      statusMonotone rest


/-- A publish result's timestamp is either absent or the clock value at
the publish call. -/
theorem publish_reel_posted_at (s : InstagramService) (cid : String)
    (cap : JsonVal) (hts : List String) (suf : String)
    (live : Except String (Option String)) (ck : Nat) :
    (s.publish_reel cid cap hts suf live ck).1.posted_at = none ∨
    (s.publish_reel cid cap hts suf live ck).1.posted_at = some ck := by
  unfold InstagramService.publish_reel
  by_cases h : s.mock_mode
  · simp [h]
  · cases live <;> simp [h]

/-- A write call either appends its write or raises leaving the state
unchanged. -/
theorem emitWrite_cases (w : DbWrite) (ok : Bool) (tr : List DbWrite)
    (ck : Nat) :
    (ok = true ∧ emitWrite w ok ⟨tr, ck⟩ = .ok ⟨tr ++ [w], ck⟩) ∨
    (ok = false ∧ emitWrite w ok ⟨tr, ck⟩ = .error ⟨tr, ck⟩) := by
  cases ok <;> simp [emitWrite]

/-- With succeeding `completed` writes, the Instagram step always appends
exactly one `completed` write, whose publish timestamp (when present) is
the clock value at entry to the step. -/
theorem igStep_allOk (env : OrchEnv) (p : PromptDoc)
    (vr : FalVideoResult) (vu : Option String) (ca : Nat) (cap : JsonVal)
    (hts : List String) (tr : List DbWrite) (ck0 : Nat)
    (h1 : env.db.videoCompletedOk = true)
    (h2 : env.db.videoCompletedExceptOk = true) :
    ∃ (pid : Option String) (pat : Option Nat) (ck : Nat),
      igStep env p vr vu ca cap hts ⟨tr, ck0⟩ =
        .ok ⟨tr ++
          [.setCompleted (mkCompleted vr p vu ca cap hts pid pat)], ck⟩ ∧
      (pat = none ∨ pat = some ck0) := by
  unfold igStep igInner
  by_cases hr : env.igRaises
  · exact ⟨none, none, ck0, by simp [hr, emitWrite, h2], .inl rfl⟩
  · rcases hcr : env.ig.create_media_container vu cap hts env.igCreate
      with ⟨cid, ig', net⟩
    cases cid with
    | none =>
      exact ⟨none, none, ck0, by simp [hr, hcr, emitWrite, h1], .inl rfl⟩
    | some c =>
      rcases hpub : ig'.publish_reel c cap hts env.igPubSuffix
          env.igPublishLive ck0 with ⟨pub, n2, ck'⟩
      by_cases hs : pub.success
      · refine ⟨pub.instagram_post_id, pub.posted_at, ck', ?_, ?_⟩
        · simp [hr, hcr, hpub, hs, emitWrite, h1]
        · have hp := publish_reel_posted_at ig' c cap hts env.igPubSuffix
            env.igPublishLive ck0
          rw [hpub] at hp
          exact hp
      · exact ⟨none, none, ck',
          by simp [hr, hcr, hpub, hs, emitWrite, h1], .inl rfl⟩

/-- Regardless of write oracles, the body of the inner Instagram `try`
either appends exactly one `completed` write or raises with the trace
unchanged. -/
theorem igInner_cases (env : OrchEnv) (p : PromptDoc)
    (vr : FalVideoResult) (vu : Option String) (ca : Nat) (cap : JsonVal)
    (hts : List String) (tr : List DbWrite) (ck0 : Nat) :
    (∃ f ck, igInner env p vr vu ca cap hts ⟨tr, ck0⟩ =
      .ok ⟨tr ++ [.setCompleted f], ck⟩) ∨
    (∃ ck, igInner env p vr vu ca cap hts ⟨tr, ck0⟩ =
      .error ⟨tr, ck⟩) := by
  unfold igInner
  by_cases hr : env.igRaises
  · exact .inr ⟨ck0, by simp [hr]⟩
  · rcases hcr : env.ig.create_media_container vu cap hts env.igCreate
      with ⟨cid, ig', net⟩
    cases cid with
    | none =>
      rcases emitWrite_cases
          (.setCompleted (mkCompleted vr p vu ca cap hts none none))
          env.db.videoCompletedOk tr ck0 with ⟨_, heq⟩ | ⟨_, heq⟩
      · exact .inl ⟨mkCompleted vr p vu ca cap hts none none, ck0,
          by simp [hr, hcr]; exact heq⟩
      · exact .inr ⟨ck0, by simp [hr, hcr]; exact heq⟩
    | some c =>
      rcases hpub : ig'.publish_reel c cap hts env.igPubSuffix
          env.igPublishLive ck0 with ⟨pub, n2, ck'⟩
      by_cases hs : pub.success
      · rcases emitWrite_cases
            (.setCompleted (mkCompleted vr p vu ca cap hts
              pub.instagram_post_id pub.posted_at))
            env.db.videoCompletedOk tr ck' with ⟨_, heq⟩ | ⟨_, heq⟩
        · exact .inl ⟨mkCompleted vr p vu ca cap hts pub.instagram_post_id
            pub.posted_at, ck', by simp [hr, hcr, hpub, hs]; exact heq⟩
        · exact .inr ⟨ck', by simp [hr, hcr, hpub, hs]; exact heq⟩
      · rcases emitWrite_cases
            (.setCompleted (mkCompleted vr p vu ca cap hts none none))
            env.db.videoCompletedOk tr ck' with ⟨_, heq⟩ | ⟨_, heq⟩
        · exact .inl ⟨mkCompleted vr p vu ca cap hts none none, ck',
            by simp [hr, hcr, hpub, hs]; exact heq⟩
        · exact .inr ⟨ck', by simp [hr, hcr, hpub, hs]; exact heq⟩

/-- Regardless of write oracles, the Instagram step either appends exactly
one `completed` write or raises with the trace unchanged. -/
theorem igStep_cases (env : OrchEnv) (p : PromptDoc)
    (vr : FalVideoResult) (vu : Option String) (ca : Nat) (cap : JsonVal)
    (hts : List String) (tr : List DbWrite) (ck0 : Nat) :
    (∃ f ck, igStep env p vr vu ca cap hts ⟨tr, ck0⟩ =
      .ok ⟨tr ++ [.setCompleted f], ck⟩) ∨
    (∃ ck, igStep env p vr vu ca cap hts ⟨tr, ck0⟩ =
      .error ⟨tr, ck⟩) := by
  rcases igInner_cases env p vr vu ca cap hts tr ck0 with
      ⟨f, ck, heq⟩ | ⟨ck, heq⟩
  · exact .inl ⟨f, ck, by unfold igStep; rw [heq]⟩
  · rcases emitWrite_cases
        (.setCompleted (mkCompleted vr p vu ca cap hts none none))
        env.db.videoCompletedExceptOk tr ck with ⟨_, hem⟩ | ⟨_, hem⟩
    · exact .inl ⟨mkCompleted vr p vu ca cap hts none none, ck,
        by unfold igStep; rw [heq]; exact hem⟩
    · exact .inr ⟨ck, by unfold igStep; rw [heq]; exact hem⟩

/-- With all record-store writes succeeding, the post-render body appends
exactly the `completed` write, the prompt-status update and the
performance insert (whose `updated_at` is the captured `completed_at`,
i.e. the clock at entry); a publish timestamp, when present, is the
strictly later clock value. -/
theorem orchRest_allOk (vid : String) (p : PromptDoc) (env : OrchEnv)
    (vr : FalVideoResult) (tr : List DbWrite) (ck0 : Nat)
    (h2 : env.db.videoCompletedOk = true)
    (h3 : env.db.videoCompletedExceptOk = true)
    (h4 : env.db.promptCompletedOk = true)
    (h5 : env.db.perfInsertOk = true) :
    ∃ (pid : Option String) (pat : Option Nat) (ck : Nat),
      orchRest vid p env vr ⟨tr, ck0⟩ = .ok ⟨tr ++
        [.setCompleted (mkCompleted vr p (orchVideoUrl vr) ck0
          (orchCaption p env).caption (orchCaption p env).hashtags pid pat),
         .promptCompleted p.id, .perfInsert vid ck0], ck⟩ ∧
      (pat = none ∨ pat = some (ck0 + 1)) := by
  obtain ⟨pid, pat, ck, hig, hpat⟩ :=
    igStep_allOk env p vr (orchVideoUrl vr) ck0
      (orchCaption p env).caption (orchCaption p env).hashtags tr
      (ck0 + 1) h2 h3
  refine ⟨pid, pat, ck, ?_, hpat⟩
  simp only [orchRest]
  rw [hig, andThen_ok]
  rcases emitWrite_cases (.promptCompleted p.id) env.db.promptCompletedOk
      (tr ++ [.setCompleted (mkCompleted vr p (orchVideoUrl vr) ck0
        (orchCaption p env).caption (orchCaption p env).hashtags pid
        pat)]) ck with ⟨_, hem1⟩ | ⟨hb, _⟩
  · rw [hem1, andThen_ok]
    rcases emitWrite_cases (.perfInsert vid ck0) env.db.perfInsertOk
        ((tr ++ [.setCompleted (mkCompleted vr p (orchVideoUrl vr) ck0
          (orchCaption p env).caption (orchCaption p env).hashtags pid
          pat)]) ++ [.promptCompleted p.id]) ck with ⟨_, hem2⟩ | ⟨hb, _⟩
    · rw [hem2, andThen_ok]
      simp [List.append_assoc]
    · rw [h5] at hb; cases hb
  · rw [h4] at hb; cases hb

/-- With the prompt-status and performance writes succeeding, the
post-render body either succeeds appending its three writes or raises
with the trace unchanged. -/
theorem orchRest_cases (vid : String) (p : PromptDoc) (env : OrchEnv)
    (vr : FalVideoResult) (tr : List DbWrite) (ck0 : Nat)
    (h4 : env.db.promptCompletedOk = true)
    (h5 : env.db.perfInsertOk = true) :
    (∃ f ck, orchRest vid p env vr ⟨tr, ck0⟩ = .ok ⟨tr ++
      [.setCompleted f, .promptCompleted p.id, .perfInsert vid ck0],
      ck⟩) ∨
    (∃ ck, orchRest vid p env vr ⟨tr, ck0⟩ = .error ⟨tr, ck⟩) := by
  rcases igStep_cases env p vr (orchVideoUrl vr) ck0
      (orchCaption p env).caption (orchCaption p env).hashtags tr
      (ck0 + 1) with ⟨f, ck, hig⟩ | ⟨ck, hig⟩
  · left
    refine ⟨f, ck, ?_⟩
    simp only [orchRest]
    rw [hig, andThen_ok]
    rcases emitWrite_cases (.promptCompleted p.id)
        env.db.promptCompletedOk (tr ++ [.setCompleted f]) ck with
        ⟨_, hem1⟩ | ⟨hb, _⟩
    · rw [hem1, andThen_ok]
      rcases emitWrite_cases (.perfInsert vid ck0) env.db.perfInsertOk
          ((tr ++ [.setCompleted f]) ++ [.promptCompleted p.id]) ck with
          ⟨_, hem2⟩ | ⟨hb, _⟩
      · rw [hem2, andThen_ok]
        simp [List.append_assoc]
      · rw [h5] at hb; cases hb
    · rw [h4] at hb; cases hb
  · right
    refine ⟨ck, ?_⟩
    simp only [orchRest]
    rw [hig, andThen_error]

/-- With all record-store writes succeeding and `FAL_KEY` configured, one
orchestrator run persists exactly processing, completed, prompt-status
and performance writes; the completed fields carry the first clock value,
a publish timestamp (when present) is strictly later, and the video url
is the render url on success and the placeholder on failure. -/
theorem process_allOk_trace (vid : String) (p : PromptDoc) (env : OrchEnv)
    (hdb : env.db = DbEnv.allOk) (hkey : env.fal.falKey ≠ "") :
    ∃ f : CompletedFields,
      (process_video_generation vid p env).trace =
        [.setProcessing, .setCompleted f, .promptCompleted p.id,
         .perfInsert vid f.completed_at] ∧
      f.completed_at = 0 ∧
      (f.posted_at = none ∨ f.posted_at = some 1) ∧
      f.video_url = (match env.fal.submitResult with
        | .error _ => some placeholder_video_url
        | .ok r => r.video_url) := by
  have h1 : env.db.videoProcessingOk = true := by rw [hdb]; rfl
  have h2 : env.db.videoCompletedOk = true := by rw [hdb]; rfl
  have h3 : env.db.videoCompletedExceptOk = true := by rw [hdb]; rfl
  have h4 : env.db.promptCompletedOk = true := by rw [hdb]; rfl
  have h5 : env.db.perfInsertOk = true := by rw [hdb]; rfl
  unfold process_video_generation orchTryBody
  rcases emitWrite_cases .setProcessing env.db.videoProcessingOk [] 0 with
      ⟨_, hem⟩ | ⟨hb, _⟩
  · cases hsub : env.fal.submitResult with
    | error e =>
      have hfal : generate_video_with_fal (build_prompt_text p)
          (p.video_length.getD 30) env.fal =
          .ok ⟨false, none, none, some e⟩ := by
        simp [generate_video_with_fal, hkey, hsub]
      obtain ⟨pid, pat, ck, hrest, hpat⟩ :=
        orchRest_allOk vid p env ⟨false, none, none, some e⟩
          [.setProcessing] 0 h2 h3 h4 h5
      refine ⟨mkCompleted ⟨false, none, none, some e⟩ p
        (orchVideoUrl ⟨false, none, none, some e⟩) 0
        (orchCaption p env).caption (orchCaption p env).hashtags pid pat,
        ?_, rfl, by simpa using hpat, rfl⟩
      simp [hem, andThen_ok, hfal, hrest, mkCompleted]
    | ok r =>
      have hfal : generate_video_with_fal (build_prompt_text p)
          (p.video_length.getD 30) env.fal =
          .ok ⟨true, r.video_url,
            some (r.duration.getD (fal_clip_duration
              (p.video_length.getD 30))), none⟩ := by
        simp [generate_video_with_fal, hkey, hsub]
      obtain ⟨pid, pat, ck, hrest, hpat⟩ :=
        orchRest_allOk vid p env ⟨true, r.video_url,
          some (r.duration.getD (fal_clip_duration
            (p.video_length.getD 30))), none⟩
          [.setProcessing] 0 h2 h3 h4 h5
      refine ⟨mkCompleted ⟨true, r.video_url,
          some (r.duration.getD (fal_clip_duration
            (p.video_length.getD 30))), none⟩ p
        (orchVideoUrl ⟨true, r.video_url,
          some (r.duration.getD (fal_clip_duration
            (p.video_length.getD 30))), none⟩) 0
        (orchCaption p env).caption (orchCaption p env).hashtags pid pat,
        ?_, rfl, by simpa using hpat, rfl⟩
      simp [hem, andThen_ok, hfal, hrest, mkCompleted]
  · rw [h1] at hb; cases hb

/-- With all record-store writes succeeding but `FAL_KEY` unconfigured,
the run persists exactly a `processing` write followed by a `failed`
write: the `ValueError` escapes `generate_video_with_fal` to the outer
handler. -/
theorem process_failed_trace (vid : String) (p : PromptDoc)
    (env : OrchEnv) (hdb : env.db = DbEnv.allOk)
    (hkey : env.fal.falKey = "") :
    (process_video_generation vid p env).trace =
      [.setProcessing, .setFailed] := by
  have h1 : env.db.videoProcessingOk = true := by rw [hdb]; rfl
  have h6 : env.db.videoFailedOk = true := by rw [hdb]; rfl
  unfold process_video_generation orchTryBody
  rcases emitWrite_cases .setProcessing env.db.videoProcessingOk [] 0 with
      ⟨_, hem⟩ | ⟨hb, _⟩
  · have hfal : generate_video_with_fal (build_prompt_text p)
        (p.video_length.getD 30) env.fal =
        .raised "FAL_KEY not configured" := by
      simp [generate_video_with_fal, hkey]
    rcases emitWrite_cases .setFailed env.db.videoFailedOk
        [.setProcessing] 0 with ⟨_, hem2⟩ | ⟨hb, _⟩
    · simp [hem, andThen_ok, hfal, hem2]
    · rw [h6] at hb; cases hb
  · rw [h1] at hb; cases hb

/-- A concrete prompt document for witnesses and counterexamples. -/
def promptDocA : PromptDoc :=
  { id := "prompt-1"
    niche := some "coffee"
    platform := some "instagram"
    video_length := some 20
    tone := some "cinematic"
    goal := some "engagement"
    hook_description := none
    scene_visuals := []
    cinematography := none
    mood := none }

/-- A concrete run environment: `FAL_KEY` unconfigured, mock Instagram,
failing caption LLM, all record-store writes succeeding. -/
def orchEnvFailedKey : OrchEnv :=
  { fal := { falKey := "", submitResult := .error "unreachable" }
    caption := .llmError "llm down"
    ig := InstagramService.init "" ""
    igCreate := { mockSuffix := "aaa", fetchResult := none, postResult := none }
    igStatuses := fun _ => none
    igPublishLive := .error "x"
    igPubSuffix := "bbb"
    igRaises := false
    db := DbEnv.allOk }

/-- As `orchEnvFailedKey` but with `FAL_KEY` configured and the render
submit/await failing inside the `try` block. -/
def orchEnvRenderError : OrchEnv :=
  { orchEnvFailedKey with
    fal := { falKey := "key", submitResult := .error "fal error" } }

/-- As `orchEnvRenderError` but with the prompt-status record-store write
raising. -/
def orchEnvPromptWriteFails : OrchEnv :=
  { orchEnvRenderError with
    db := { DbEnv.allOk with promptCompletedOk := false } }

/-- C3: with record-store writes succeeding, the last status persisted by
a terminating orchestrator run (normal return, or exception caught at the
outermost handler) is `completed` or `failed`, never `processing` or
`queued`. -/
theorem terminal_status_spec (vid : String) (p : PromptDoc)
    (env : OrchEnv) (hdb : env.db = DbEnv.allOk) :
    (statusWrites (process_video_generation vid p env).trace).getLast? =
      some .completed ∨
    (statusWrites (process_video_generation vid p env).trace).getLast? =
      some .failed := by
  by_cases hkey : env.fal.falKey = ""
  · right
    rw [process_failed_trace vid p env hdb hkey]
    rfl
  · left
    obtain ⟨f, htr, -, -, -⟩ := process_allOk_trace vid p env hdb hkey
    rw [htr]
    rfl

/-- Witness for C3 at a concrete run. -/
theorem terminal_status_spec_witness :
    (statusWrites (process_video_generation "video-1" promptDocA
      orchEnvRenderError).trace).getLast? = some .completed ∨
    (statusWrites (process_video_generation "video-1" promptDocA
      orchEnvRenderError).trace).getLast? = some .failed :=
  terminal_status_spec "video-1" promptDocA orchEnvRenderError rfl

/-- Counterexample to C1 as stated: when `generate_video_with_fal` raises
(`FAL_KEY` unconfigured), the job is marked `failed` and no `completed`
write with the placeholder URL ever happens — the raise sits before the
`try` block of `generate_video_with_fal` and escapes to the outer
handler. -/
theorem render_raise_fails_job :
    (process_video_generation "video-1" promptDocA orchEnvFailedKey).trace
      = [.setProcessing, .setFailed] ∧
    (∀ f, DbWrite.setCompleted f ∉
      (process_video_generation "video-1" promptDocA
        orchEnvFailedKey).trace) := by
  have h := process_failed_trace "video-1" promptDocA orchEnvFailedKey
    rfl rfl
  refine ⟨h, ?_⟩
  intro f hf
  rw [h] at hf
  simp at hf

/-- C1 (amended): when the render step fails by returning
`success: false` — which is what any exception inside
`generate_video_with_fal`'s `try` block produces — the job still reaches
`completed` with the documented placeholder URL; but when
`generate_video_with_fal` itself raises (exactly the unconfigured
`FAL_KEY` case), the outer handler terminates the job in `failed`
instead. -/
theorem render_failure_completes_with_placeholder (vid : String)
    (p : PromptDoc) (env : OrchEnv) (msg : String)
    (hdb : env.db = DbEnv.allOk) (hkey : env.fal.falKey ≠ "")
    (hsub : env.fal.submitResult = .error msg) :
    ∃ f : CompletedFields,
      DbWrite.setCompleted f ∈
        (process_video_generation vid p env).trace ∧
      f.video_url = some placeholder_video_url ∧
      (statusWrites (process_video_generation vid p env).trace).getLast? =
        some .completed := by
  obtain ⟨f, htr, -, -, hvu⟩ := process_allOk_trace vid p env hdb hkey
  rw [hsub] at hvu
  refine ⟨f, ?_, hvu, ?_⟩
  · rw [htr]; simp
  · rw [htr]; rfl

/-- Witness for the amended C1 at a concrete failing render. -/
theorem render_failure_completes_with_placeholder_witness :
    ∃ f : CompletedFields,
      DbWrite.setCompleted f ∈
        (process_video_generation "video-1" promptDocA
          orchEnvRenderError).trace ∧
      f.video_url = some placeholder_video_url ∧
      (statusWrites (process_video_generation "video-1" promptDocA
        orchEnvRenderError).trace).getLast? = some .completed :=
  render_failure_completes_with_placeholder "video-1" promptDocA
    orchEnvRenderError "fal error" rfl (by decide) rfl

/-- Counterexample to C2 as stated: when the prompt-status update raises
after the `completed` write, the outer handler persists `failed` — the
status sequence is processing, completed, failed, so a terminal status is
revisited. -/
theorem completed_then_failed_counterexample :
    statusWrites (process_video_generation "video-1" promptDocA
      orchEnvPromptWriteFails).trace =
      [.processing, .completed, .failed] ∧
    statusMonotone (statusWrites (process_video_generation "video-1"
      promptDocA orchEnvPromptWriteFails).trace) = false := by
  constructor <;> rfl

/-- With the prompt-status and performance writes succeeding, the status
sequence of a run is one of five shapes, none of which revisits a
terminal status. -/
theorem process_statusWrites_cases (vid : String) (p : PromptDoc)
    (env : OrchEnv) (h4 : env.db.promptCompletedOk = true)
    (h5 : env.db.perfInsertOk = true) :
    statusWrites (process_video_generation vid p env).trace = [] ∨
    statusWrites (process_video_generation vid p env).trace = [.failed] ∨
    statusWrites (process_video_generation vid p env).trace =
      [.processing] ∨
    statusWrites (process_video_generation vid p env).trace =
      [.processing, .failed] ∨
    statusWrites (process_video_generation vid p env).trace =
      [.processing, .completed] := by
  unfold process_video_generation orchTryBody
  rcases emitWrite_cases .setProcessing env.db.videoProcessingOk [] 0 with
      ⟨_, hem⟩ | ⟨_, hem⟩
  · cases hfal : generate_video_with_fal (build_prompt_text p)
        (p.video_length.getD 30) env.fal with
    | raised msg =>
      rcases emitWrite_cases .setFailed env.db.videoFailedOk
          [.setProcessing] 0 with ⟨_, hem2⟩ | ⟨_, hem2⟩
      · right; right; right; left
        simp [hem, andThen_ok, hfal, hem2, statusWrites, statusOfWrite]
      · right; right; left
        simp [hem, andThen_ok, hfal, hem2, statusWrites, statusOfWrite]
    | ok vr =>
      rcases orchRest_cases vid p env vr [.setProcessing] 0 h4 h5 with
          ⟨f, ck, hrest⟩ | ⟨ck, hrest⟩
      · right; right; right; right
        simp [hem, andThen_ok, hfal, hrest, statusWrites, statusOfWrite]
      · rcases emitWrite_cases .setFailed env.db.videoFailedOk
            [.setProcessing] ck with ⟨_, hem2⟩ | ⟨_, hem2⟩
        · right; right; right; left
          simp [hem, andThen_ok, hfal, hrest, hem2, statusWrites,
            statusOfWrite]
        · right; right; left
          simp [hem, andThen_ok, hfal, hrest, hem2, statusWrites,
            statusOfWrite]
  · rcases emitWrite_cases .setFailed env.db.videoFailedOk [] 0 with
        ⟨_, hem2⟩ | ⟨_, hem2⟩
    · right; left
      simp [hem, andThen_error, hem2, statusWrites, statusOfWrite]
    · left
      simp [hem, andThen_error, hem2, statusWrites]

/-- C2 (amended): the persisted status sequence is monotone — once
`completed` or `failed` is written, no later status write differs —
provided the post-completion bookkeeping writes (the prompt-status update
and the PerformanceMetrics insert) do not raise. If one of them raises
after the `completed` write, the outer handler overwrites the status with
`failed` (see the counterexample). -/
theorem status_monotone_spec (vid : String) (p : PromptDoc)
    (env : OrchEnv) (h4 : env.db.promptCompletedOk = true)
    (h5 : env.db.perfInsertOk = true) :
    statusMonotone (statusWrites
      (process_video_generation vid p env).trace) = true := by
  rcases process_statusWrites_cases vid p env h4 h5 with
      h | h | h | h | h <;> rw [h] <;> decide

/-- Witness for the amended C2 at a concrete run. -/
theorem status_monotone_spec_witness :
    statusMonotone (statusWrites (process_video_generation "video-1"
      promptDocA orchEnvRenderError).trace) = true :=
  status_monotone_spec "video-1" promptDocA orchEnvRenderError rfl rfl

/-- C10: on every completed run (writes succeed, `FAL_KEY` configured),
`completed_at` is captured right after the render step — it is the first
clock value, taken before caption generation and publishing — the
PerformanceMetrics insert carries exactly that `completed_at` as its
`updated_at`, and a persisted `posted_at` (taken at publish time) is
strictly later, hence never earlier than `completed_at`. -/
theorem completed_timestamp_spec (vid : String) (p : PromptDoc)
    (env : OrchEnv) (hdb : env.db = DbEnv.allOk)
    (hkey : env.fal.falKey ≠ "") :
    ∃ f : CompletedFields,
      (process_video_generation vid p env).trace =
        [.setProcessing, .setCompleted f, .promptCompleted p.id,
         .perfInsert vid f.completed_at] ∧
      (∀ t, f.posted_at = some t → f.completed_at < t) := by
  obtain ⟨f, htr, hca, hpat, -⟩ := process_allOk_trace vid p env hdb hkey
  refine ⟨f, htr, ?_⟩
  intro t ht
  rcases hpat with h | h
  · rw [h] at ht; cases ht
  · rw [h] at ht
    injection ht with ht'
    rw [hca]
    omega

/-- Witness for C10 at a concrete completed run. -/
theorem completed_timestamp_spec_witness :
    ∃ f : CompletedFields,
      (process_video_generation "video-1" promptDocA
        orchEnvRenderError).trace =
        [.setProcessing, .setCompleted f, .promptCompleted promptDocA.id,
         .perfInsert "video-1" f.completed_at] ∧
      (∀ t, f.posted_at = some t → f.completed_at < t) :=
  completed_timestamp_spec "video-1" promptDocA orchEnvRenderError rfl
    (by decide)
